import Mathlib

/-! Shallow embedding of the FriendZone social-activity rule core
(src/core/models.py, src/core/views.py, src/core/signals.py).

Users are opaque numeric ids.  Dates and times are modelled as natural
numbers; a date and a time-of-day combine into a single instant
(datetime.combine), with the time strictly inside one day.  Persistent
state is a record of lists mirroring the database tables.  View
functions become pure functions from state to outcome plus new state;
a Django message maps to an outcome constructor.  Note that views.py
defines rate_user twice: the second definition, which is the one
bound at module load and routed by urls.py, is the one embedded
here. -/

namespace Social

abbrev UserId := Nat

/-- Connection status choices (models.ConnectionStatus). -/
inductive ConnectionStatus where
  | pending
  | accepted
  | rejected
deriving DecidableEq

/-- One row of the Connection table (models.Connection). -/
structure Connection where
  id : Nat
  sender : UserId
  receiver : UserId
  status : ConnectionStatus
deriving DecidableEq

/-- One row of the Block table (models.Block). -/
structure Block where
  blocker : UserId
  blocked_user : UserId
deriving DecidableEq

/-- One row of the Report table (models.Report). -/
structure Report where
  reporter : UserId
  reported_user : UserId
  reason : String
deriving DecidableEq

/-- One row of the Rating table (models.Rating).  The score is an
integer; range validation happens in clean_fields, not here. -/
structure Rating where
  rater : UserId
  rated_user : UserId
  activity : Nat
  score : Int
  feedback : String
deriving DecidableEq

/-- The derived statistics fields of a Profile (models.Profile).
Other profile fields (bio, age, city, ...) play no part in the claims
and are omitted. -/
structure Profile where
  average_rating : ℚ
  total_ratings : Nat
deriving DecidableEq

/-- One row of the Activity table (models.Activity). -/
structure Activity where
  id : Nat
  creator : UserId
  date : Nat
  time : Nat
  participants : List UserId
  is_active : Bool
deriving DecidableEq

/-- datetime.combine over the numeric model: a date is a day index and
a time is a minute of the day, so instants compare lexicographically. -/
def combine (d t : Nat) : Nat := d * 1440 + t

/-- Activity.is_past from models.py: the combined date and time instant
is strictly before the current time. -/
def Activity.is_past (a : Activity) (now : Nat) : Bool :=
  decide (combine a.date a.time < now)

/-- Activity.save from models.py: deactivate a past activity on every
persist, then persist.  The returned record is the persisted row. -/
def Activity.save (a : Activity) (now : Nat) : Activity :=
  if a.is_past now && a.is_active then { a with is_active := false } else a

/-- The whole persistent state. nextConnId and nextActId model the
autoincrement primary keys actually used by the claims. -/
structure DB where
  activities : List Activity
  connections : List Connection
  blocks : List Block
  reports : List Report
  ratings : List Rating
  profiles : List (UserId × Profile)
  nextConnId : Nat
  nextActId : Nat
deriving DecidableEq

/-- str.strip() of Python: remove whitespace from both ends of a
string. -/
def strip (s : String) : String :=
  ⟨((s.data.dropWhile Char.isWhitespace).reverse.dropWhile
      Char.isWhitespace).reverse⟩

/-- get_object_or_404(Activity, id=...): first row with the given id. -/
def findActivity (db : DB) (id : Nat) : Option Activity :=
  db.activities.find? (fun a => a.id == id)

/-- Block.objects.filter(Q(blocker=a, blocked_user=b) | Q(blocker=b,
blocked_user=a)).exists(). -/
def blockedEitherWay (db : DB) (a b : UserId) : Bool :=
  db.blocks.any (fun x =>
    (x.blocker == a && x.blocked_user == b) ||
    (x.blocker == b && x.blocked_user == a))

/-- hasattr(user, "profile"). -/
def hasProfile (db : DB) (u : UserId) : Bool :=
  db.profiles.any (fun p => p.1 == u)

/-- Ratings received by a user: Rating.objects.filter(rated_user=u). -/
def ratingsFor (ratings : List Rating) (u : UserId) : List Rating :=
  ratings.filter (fun r => r.rated_user == u)

/-- Rounding to two decimal places, the round(x, 2) applied by
Profile.update_rating_stats and quoted verbatim by the spec formula. -/
def round2 (q : ℚ) : ℚ := (round (q * 100) : ℤ) / 100

/-- The pair of derived fields Profile.update_rating_stats computes:
average of the scores of the ratings received (0.0 when there are
none, so no division by zero) rounded to two decimals, and their
count. -/
def ratingStats (ratings : List Rating) (u : UserId) : Profile :=
  let rs := ratingsFor ratings u
  { average_rating :=
      if rs.length == 0 then 0
      else round2 (((rs.map (fun r => (r.score : ℚ))).sum) / (rs.length : ℚ)),
    total_ratings := rs.length }

/-- Profile.update_rating_stats from models.py: recompute both derived
fields from the Rating table and write them to the profile row of the
given user. -/
def updateRatingStats (db : DB) (u : UserId) : DB :=
  { db with profiles := db.profiles.map (fun p =>
      if p.1 == u then (p.1, ratingStats db.ratings u) else p) }

/-- post_save signal update_rated_user_stats from signals.py, fired by
Rating persistence: refresh the rated user statistics when that user
has a profile. -/
def ratingPostSave (db : DB) (r : Rating) : DB :=
  if hasProfile db r.rated_user then updateRatingStats db r.rated_user else db

/-- Reasons a rating request can be refused, one constructor per
distinct error produced along the rate_user + Rating.full_clean
pipeline, plus the spec vocabulary used for comparison. -/
inductive RateReason where
  | selfRatingForbidden
  | notAParticipant
  | activityNotCompleted
  | duplicateRating
  | blockedRelationship
  | invalidScore
  | creatorCannotRate
  | onlyCreatorCanBeRated
  | notFound
deriving DecidableEq

/-- Rating.clean from models.py, in source order.  The defensive null
check on the foreign keys cannot fire in the embedding because the
fields are total, so it is omitted.  Returns the first failure. -/
def Rating.clean (r : Rating) (a : Activity) (db : DB) (now : Nat) :
    Option RateReason :=
  if r.rater == a.creator then some .creatorCannotRate
  else if r.rated_user != a.creator then some .onlyCreatorCanBeRated
  else if !(a.participants.any (fun p => p == r.rater)) then some .notAParticipant
  else if !(a.is_past now) then some .activityNotCompleted
  else if db.blocks.any (fun b => b.blocker == r.rater && b.blocked_user == a.creator) then
    some .blockedRelationship
  else if db.blocks.any (fun b => b.blocker == a.creator && b.blocked_user == r.rater) then
    some .blockedRelationship
  else none

/-- Model.clean_fields restricted to the score field validators
MinValueValidator 1 and MaxValueValidator 5. -/
def Rating.clean_fields (r : Rating) : List RateReason :=
  (if r.score < 1 then [RateReason.invalidScore] else []) ++
  (if 5 < r.score then [RateReason.invalidScore] else [])

/-- Model.full_clean as Django runs it: field validation first, then
clean, with the errors of both collected into one list.  An empty list
means the instance is valid. -/
def Rating.full_clean (r : Rating) (a : Activity) (db : DB) (now : Nat) :
    List RateReason :=
  Rating.clean_fields r ++
    (match Rating.clean r a db now with
     | some e => [e]
     | none => [])

/-- Rating.save from models.py: full_clean, then persist; persistence
fires the post_save signal that refreshes the rated user statistics. -/
def Rating.save (r : Rating) (a : Activity) (db : DB) (now : Nat) :
    Except (List RateReason) DB :=
  match Rating.full_clean r a db now with
  | [] => .ok (ratingPostSave { db with ratings := db.ratings ++ [r] } r)
  | errs => .error errs

/-- Outcome of the rate_user view. -/
inductive RateOutcome where
  | success
  | failure (reasons : List RateReason)
deriving DecidableEq

/-- rate_user from views.py (the second, effective definition): the
view checks in source order are self-rating, participation, completed
activity, duplicate rating, block in each direction; then the Rating
instance is validated with full_clean and persisted, and the rated
user statistics are refreshed by the signal and once more explicitly.
The score has already been parsed to an integer; the missing and
non-numeric score branches precede everything and are outside the
embedding. -/
def rate_user (db : DB) (rater : UserId) (activity_id user_id : Nat)
    (score : Int) (feedback : String) (now : Nat) : RateOutcome × DB :=
  match findActivity db activity_id with
  | none => (.failure [.notFound], db)
  | some activity =>
    if rater == user_id then (.failure [.selfRatingForbidden], db)
    else if !(activity.participants.any (fun p => p == rater)) then
      (.failure [.notAParticipant], db)
    else if !(activity.is_past now) then (.failure [.activityNotCompleted], db)
    else if db.ratings.any (fun r => r.rater == rater && r.activity == activity_id) then
      (.failure [.duplicateRating], db)
    else if db.blocks.any (fun b => b.blocker == rater && b.blocked_user == user_id) then
      (.failure [.blockedRelationship], db)
    else if db.blocks.any (fun b => b.blocker == user_id && b.blocked_user == rater) then
      (.failure [.blockedRelationship], db)
    else
      let r : Rating :=
        { rater := rater, rated_user := user_id, activity := activity_id,
          score := score, feedback := strip feedback }
      match Rating.full_clean r activity db now with
      | [] =>
        let db1 := ratingPostSave { db with ratings := db.ratings ++ [r] } r
        let db2 := if hasProfile db1 user_id then updateRatingStats db1 user_id else db1
        (.success, db2)
      | errs => (.failure errs, db)

/-- Modelled from the spec: the central predicate can_rate of section
4.3, its six eligibility checks in the fixed order the spec states,
first failure wins.  Used only to compare the claimed order with the
implemented pipeline. -/
def can_rate (db : DB) (rater rated : UserId) (a : Activity) (now : Nat) :
    Option RateReason :=
  if rater == rated then some .selfRatingForbidden
  else if rated != a.creator then some .onlyCreatorCanBeRated
  else if !(a.participants.any (fun p => p == rater)) then some .notAParticipant
  else if !(a.is_past now) then some .activityNotCompleted
  else if db.ratings.any (fun r => r.rater == rater && r.activity == a.id) then
    some .duplicateRating
  else if blockedEitherWay db rater rated then some .blockedRelationship
  else none

/-- The order the implementation actually applies: the five view-level
checks of rate_user, then the two novel checks of Rating.clean (the
re-checks of participation, completion and blocks inside clean cannot
fail once the view checks passed). -/
def can_rate_impl (db : DB) (rater rated : UserId) (a : Activity) (now : Nat) :
    Option RateReason :=
  if rater == rated then some .selfRatingForbidden
  else if !(a.participants.any (fun p => p == rater)) then some .notAParticipant
  else if !(a.is_past now) then some .activityNotCompleted
  else if db.ratings.any (fun r => r.rater == rater && r.activity == a.id) then
    some .duplicateRating
  else if db.blocks.any (fun b => b.blocker == rater && b.blocked_user == rated) then
    some .blockedRelationship
  else if db.blocks.any (fun b => b.blocker == rated && b.blocked_user == rater) then
    some .blockedRelationship
  else if rater == a.creator then some .creatorCannotRate
  else if rated != a.creator then some .onlyCreatorCanBeRated
  else none

/-- Outcome of the join_activity view.  The two InvalidState cases of
the spec taxonomy keep separate constructors so the check order stays
observable. -/
inductive JoinOutcome where
  | notFound
  | forbidden
  | invalidStateInactive
  | invalidStatePast
  | invalidOperationSelf
  | alreadyExists
  | joined
deriving DecidableEq

/-- join_activity from views.py, checks in source order: block either
way with the creator, activity inactive, activity past, self-join,
already a participant, then participants.add. -/
def join_activity (db : DB) (user : UserId) (id : Nat) (now : Nat) :
    JoinOutcome × DB :=
  match findActivity db id with
  | none => (.notFound, db)
  | some activity =>
    if db.blocks.any (fun b =>
        (b.blocker == user && b.blocked_user == activity.creator) ||
        (b.blocker == activity.creator && b.blocked_user == user)) then
      (.forbidden, db)
    else if !activity.is_active then (.invalidStateInactive, db)
    else if activity.is_past now then (.invalidStatePast, db)
    else if activity.creator == user then (.invalidOperationSelf, db)
    else if activity.participants.any (fun p => p == user) then
      (.alreadyExists, db)
    else
      (.joined, { db with activities := db.activities.map (fun a =>
        if a.id == id then { a with participants := a.participants ++ [user] }
        else a) })

/-- Outcome of the send_connection view. -/
inductive ConnOutcome where
  | forbidden
  | invalidOperationSelf
  | alreadyConnected
  | requestAlreadySent
  | incomingRequestExists
  | requestSent
deriving DecidableEq

/-- send_connection from views.py: block check, self check, then the
first existing Connection row of the unordered pair decides — Accepted
and Pending are informational stops, a Rejected row is overwritten in
place to Pending with the caller as new sender, and with no row a
fresh Pending row is created. -/
def send_connection (db : DB) (user receiver : UserId) : ConnOutcome × DB :=
  if blockedEitherWay db user receiver then (.forbidden, db)
  else if user == receiver then (.invalidOperationSelf, db)
  else
    match db.connections.find? (fun c =>
        (c.sender == user && c.receiver == receiver) ||
        (c.sender == receiver && c.receiver == user)) with
    | some c =>
      if c.status == .accepted then (.alreadyConnected, db)
      else if c.status == .pending then
        (if c.sender == user then .requestAlreadySent
         else .incomingRequestExists, db)
      else
        (.requestSent, { db with connections := db.connections.map (fun c2 =>
          if c2.id == c.id then
            { c2 with sender := user, receiver := receiver,
                      status := ConnectionStatus.pending }
          else c2) })
    | none =>
      (.requestSent, { db with
        connections := db.connections ++
          [{ id := db.nextConnId, sender := user, receiver := receiver,
             status := ConnectionStatus.pending }],
        nextConnId := db.nextConnId + 1 })

/-- accept_connection from views.py: only the receiver may accept and
only a Pending row transitions; the failure branches leave the state
unchanged (their messages are presentation, so only the state is
returned). -/
def accept_connection (db : DB) (user : UserId) (id : Nat) : DB :=
  match db.connections.find? (fun c => c.id == id) with
  | none => db
  | some c =>
    if c.receiver != user then db
    else if c.status != ConnectionStatus.pending then db
    else { db with connections := db.connections.map (fun c2 =>
      if c2.id == id then { c2 with status := ConnectionStatus.accepted } else c2) }

/-- reject_connection from views.py, symmetric to accept. -/
def reject_connection (db : DB) (user : UserId) (id : Nat) : DB :=
  match db.connections.find? (fun c => c.id == id) with
  | none => db
  | some c =>
    if c.receiver != user then db
    else if c.status != ConnectionStatus.pending then db
    else { db with connections := db.connections.map (fun c2 =>
      if c2.id == id then { c2 with status := ConnectionStatus.rejected } else c2) }

/-- Outcome of the block_user view, named with the spec taxonomy. -/
inductive BlockOutcome where
  | invalidOperation
  | alreadyExists
  | success
deriving DecidableEq

/-- block_user from views.py: self check, duplicate pair check, then
delete every Connection row between the two parties in either
direction and record the block. -/
def block_user (db : DB) (user target : UserId) : BlockOutcome × DB :=
  if user == target then (.invalidOperation, db)
  else if db.blocks.any (fun b => b.blocker == user && b.blocked_user == target) then
    (.alreadyExists, db)
  else
    (.success, { db with
      connections := db.connections.filter (fun c =>
        !((c.sender == user && c.receiver == target) ||
          (c.sender == target && c.receiver == user))),
      blocks := db.blocks ++ [{ blocker := user, blocked_user := target }] })

/-- unblock_user from views.py: delete the directed edge when present,
no error when absent. -/
def unblock_user (db : DB) (user target : UserId) : DB :=
  { db with blocks := db.blocks.filter (fun b =>
      !(b.blocker == user && b.blocked_user == target)) }

/-- Outcome of the report_user view, named with the spec taxonomy. -/
inductive ReportOutcome where
  | invalidOperation
  | alreadyExists
  | invalidInput
  | reported
deriving DecidableEq

/-- report_user from views.py, checks in source order: self check,
duplicate check, then on the POST branch the trimmed reason must be
nonempty before the report row is persisted. -/
def report_user (db : DB) (user reported : UserId) (reason : String) :
    ReportOutcome × DB :=
  if user == reported then (.invalidOperation, db)
  else if db.reports.any (fun r =>
      r.reporter == user && r.reported_user == reported) then
    (.alreadyExists, db)
  else
    let reasonT := strip reason
    if reasonT == "" then (.invalidInput, db)
    else
      (.reported, { db with reports := db.reports ++
        [{ reporter := user, reported_user := reported, reason := reasonT }] })

/-- create_activity from views.py: a fresh activity with the caller as
creator and no participants, persisted through Activity.save, so a
past date deactivates it immediately. -/
def create_activity (db : DB) (creator : UserId) (d t : Nat) (now : Nat) : DB :=
  let a : Activity := Activity.save
    { id := db.nextActId, creator := creator, date := d, time := t,
      participants := [], is_active := true } now
  { db with activities := db.activities ++ [a], nextActId := db.nextActId + 1 }

/-- The state-mutating operations reachable through urls.py.  The
remaining routes (home, discover, register, login, logout,
edit_profile, the GET forms) read or touch entities outside this
state. -/
inductive Op where
  | createActivity (creator : UserId) (d t now : Nat)
  | join (user : UserId) (id now : Nat)
  | sendConnection (user receiver : UserId)
  | acceptConnection (user : UserId) (id : Nat)
  | rejectConnection (user : UserId) (id : Nat)
  | rate (rater : UserId) (activity_id user_id : Nat) (score : Int)
      (feedback : String) (now : Nat)
  | report (user reported : UserId) (reason : String)
  | block (user target : UserId)
  | unblock (user target : UserId)

/-- One user action dispatched to its view. -/
def step (db : DB) (op : Op) : DB :=
  match op with
  | .createActivity c d t now => create_activity db c d t now
  | .join u id now => (join_activity db u id now).2
  | .sendConnection u r => (send_connection db u r).2
  | .acceptConnection u id => accept_connection db u id
  | .rejectConnection u id => reject_connection db u id
  | .rate u aid uid s fb now => (rate_user db u aid uid s fb now).2
  | .report u r reason => (report_user db u r reason).2
  | .block u t => (block_user db u t).2
  | .unblock u t => unblock_user db u t

/-- The participant set of the activity with a given id, empty when no
such activity exists. -/
def participantsOf (db : DB) (id : Nat) : List UserId :=
  match findActivity db id with
  | some a => a.participants
  | none => []

/-! Helper lemmas about find? used by several claims. -/

theorem find?_map_of_key {α : Type} (l : List α) (p : α → Bool) (f : α → α)
    (hp : ∀ a, p (f a) = p a) : (l.map f).find? p = (l.find? p).map f := by
  induction l with
  | nil => rfl
  | cons x xs ih =>
    by_cases h : p x = true
    · rw [List.map_cons, List.find?_cons_of_pos _ (by rw [hp]; exact h),
        List.find?_cons_of_pos _ h]
      rfl
    · rw [List.map_cons, List.find?_cons_of_neg _ (by rw [hp]; exact h),
        List.find?_cons_of_neg _ h, ih]

theorem find?_append_cases {α : Type} (l₁ l₂ : List α) (p : α → Bool) :
    (l₁ ++ l₂).find? p =
      match l₁.find? p with
      | some a => some a
      | none => l₂.find? p := by
  induction l₁ with
  | nil => rfl
  | cons x xs ih =>
    by_cases h : p x = true
    · rw [List.cons_append, List.find?_cons_of_pos _ h,
        List.find?_cons_of_pos _ h]
    · rw [List.cons_append, List.find?_cons_of_neg _ h,
        List.find?_cons_of_neg _ h, ih]

/-! Claim theorems. -/

/-- C2: immediately after any Activity.save, an activity whose date
and time instant is strictly before the current time is not active;
the deactivation happens on every persist. -/
theorem activity_save_past_implies_inactive (a : Activity) (now : Nat)
    (h : (Activity.save a now).is_past now = true) :
    (Activity.save a now).is_active = false := by
  have hpast : (Activity.save a now).is_past now = a.is_past now := by
    unfold Activity.save
    split <;> rfl
  rw [hpast] at h
  unfold Activity.save
  split
  · rfl
  · rename_i hc
    simp only [h, Bool.true_and] at hc
    simpa using hc

/-- Witness for C2 at a concrete past, active activity. -/
theorem activity_save_past_implies_inactive_witness :
    (Activity.save
      { id := 0, creator := 1, date := 0, time := 0, participants := [],
        is_active := true } 1).is_active = false :=
  activity_save_past_implies_inactive
    { id := 0, creator := 1, date := 0, time := 0, participants := [],
      is_active := true } 1 (by decide)

/-- C9: whenever the rater is the creator of the activity, the Rating
model validation fails — clean raises the creator-cannot-rate error
and Rating.save refuses to persist — whoever the rated user is. -/
theorem rating_creator_rater_always_fails (r : Rating) (a : Activity)
    (db : DB) (now : Nat) (h : r.rater = a.creator) :
    Rating.clean r a db now = some RateReason.creatorCannotRate ∧
      ∃ errs, errs ≠ [] ∧ Rating.save r a db now = Except.error errs := by
  have hclean : Rating.clean r a db now = some RateReason.creatorCannotRate := by
    unfold Rating.clean
    rw [if_pos (by simp [h])]
  have hfc : Rating.full_clean r a db now =
      r.clean_fields ++ [RateReason.creatorCannotRate] := by
    unfold Rating.full_clean
    rw [hclean]
  refine ⟨hclean, r.clean_fields ++ [RateReason.creatorCannotRate], by simp, ?_⟩
  unfold Rating.save
  rw [hfc]
  cases Rating.clean_fields r with
  | nil => rfl
  | cons x xs => rfl

/-- Witness for C9: the creator of a past activity attempting to rate
a third user still fails model validation. -/
theorem rating_creator_rater_always_fails_witness :
    Rating.clean
      { rater := 1, rated_user := 2, activity := 0, score := 5, feedback := "" }
      { id := 0, creator := 1, date := 0, time := 0, participants := [1],
        is_active := false }
      { activities := [], connections := [], blocks := [], reports := [],
        ratings := [], profiles := [], nextConnId := 0, nextActId := 0 } 9 =
      some RateReason.creatorCannotRate ∧
    ∃ errs, errs ≠ [] ∧
      Rating.save
        { rater := 1, rated_user := 2, activity := 0, score := 5, feedback := "" }
        { id := 0, creator := 1, date := 0, time := 0, participants := [1],
          is_active := false }
        { activities := [], connections := [], blocks := [], reports := [],
          ratings := [], profiles := [], nextConnId := 0, nextActId := 0 } 9 =
        Except.error errs :=
  rating_creator_rater_always_fails _ _ _ 9 rfl

/-- C6: create_block fails InvalidOperation on a self block, fails
AlreadyExists when the directed pair is already present, and on
success records the block and deletes exactly the Connection rows
between the two parties in either direction. -/
theorem block_user_contract (db : DB) (user target : UserId) :
    (user = target →
      block_user db user target = (BlockOutcome.invalidOperation, db)) ∧
    (user ≠ target →
      db.blocks.any (fun b => b.blocker == user && b.blocked_user == target) = true →
      block_user db user target = (BlockOutcome.alreadyExists, db)) ∧
    (user ≠ target →
      db.blocks.any (fun b => b.blocker == user && b.blocked_user == target) = false →
      (block_user db user target).1 = BlockOutcome.success ∧
      (block_user db user target).2.blocks =
        db.blocks ++ [{ blocker := user, blocked_user := target }] ∧
      (∀ c ∈ (block_user db user target).2.connections,
        c ∈ db.connections ∧
          ¬((c.sender = user ∧ c.receiver = target) ∨
            (c.sender = target ∧ c.receiver = user))) ∧
      (∀ c ∈ db.connections,
        ¬((c.sender = user ∧ c.receiver = target) ∨
          (c.sender = target ∧ c.receiver = user)) →
        c ∈ (block_user db user target).2.connections)) := by
  refine ⟨?_, ?_, ?_⟩
  · intro h
    subst h
    unfold block_user
    rw [if_pos (by simp)]
  · intro hne hdup
    unfold block_user
    rw [if_neg (by simp [hne]), if_pos hdup]
  · intro hne hdup
    unfold block_user
    rw [if_neg (by simp [hne]), if_neg (by simp [hdup])]
    refine ⟨rfl, rfl, ?_, ?_⟩
    · intro c hc
      rw [List.mem_filter] at hc
      refine ⟨hc.1, ?_⟩
      have h2 := hc.2
      simp only [Bool.not_eq_true', Bool.or_eq_false_iff,
        Bool.and_eq_false_iff, beq_eq_false_iff_ne, ne_eq] at h2
      tauto
    · intro c hc hno
      rw [List.mem_filter]
      refine ⟨hc, ?_⟩
      simp only [Bool.not_eq_true', Bool.or_eq_false_iff,
        Bool.and_eq_false_iff, beq_eq_false_iff_ne, ne_eq]
      tauto

/-- Witness for C6, exercising all three branches on concrete states:
a self block, a duplicate block, and a successful block that removes
the connection between the parties. -/
theorem block_user_contract_witness :
    block_user
      { activities := [], connections := [⟨0, 1, 2, .accepted⟩],
        blocks := [], reports := [], ratings := [], profiles := [],
        nextConnId := 1, nextActId := 0 } 1 1 =
      (BlockOutcome.invalidOperation,
       { activities := [], connections := [⟨0, 1, 2, .accepted⟩],
         blocks := [], reports := [], ratings := [], profiles := [],
         nextConnId := 1, nextActId := 0 }) ∧
    block_user
      { activities := [], connections := [], blocks := [⟨1, 2⟩],
        reports := [], ratings := [], profiles := [],
        nextConnId := 0, nextActId := 0 } 1 2 =
      (BlockOutcome.alreadyExists,
       { activities := [], connections := [], blocks := [⟨1, 2⟩],
         reports := [], ratings := [], profiles := [],
         nextConnId := 0, nextActId := 0 }) ∧
    (block_user
      { activities := [], connections := [⟨0, 1, 2, .accepted⟩],
        blocks := [], reports := [], ratings := [], profiles := [],
        nextConnId := 1, nextActId := 0 } 1 2).1 = BlockOutcome.success ∧
    (block_user
      { activities := [], connections := [⟨0, 1, 2, .accepted⟩],
        blocks := [], reports := [], ratings := [], profiles := [],
        nextConnId := 1, nextActId := 0 } 1 2).2.blocks =
      ([] : List Block) ++ [{ blocker := 1, blocked_user := 2 }] := by
  refine ⟨(block_user_contract _ 1 1).1 rfl,
    (block_user_contract _ 1 2).2.1 (by decide) (by decide),
    ((block_user_contract _ 1 2).2.2 (by decide) (by decide)).1,
    ((block_user_contract _ 1 2).2.2 (by decide) (by decide)).2.1⟩

/-- C8 counterexample: a reporter distinct from the reported user, an
empty reason and an existing prior report from the same pair; the code
reports AlreadyExists, while the claimed order (self, then empty
reason, then duplicate) would report the empty reason first. -/
theorem report_user_order_counterexample :
    (1 : UserId) ≠ 2 ∧ strip "" = "" ∧
    (report_user
      { activities := [], connections := [], blocks := [],
        reports := [{ reporter := 1, reported_user := 2, reason := "x" }],
        ratings := [], profiles := [], nextConnId := 0, nextActId := 0 }
      1 2 "").1 = ReportOutcome.alreadyExists ∧
    ReportOutcome.alreadyExists ≠ ReportOutcome.invalidInput := by
  refine ⟨by decide, by decide, by decide, by decide⟩

/-- C8 amended: file_report checks, in this order, reporter equal to
reported (InvalidOperation), an existing prior report from the same
reporter against the same user (AlreadyExists), and only then an
empty reason after trimming (InvalidInput); otherwise the report is
persisted with the trimmed reason. -/
theorem report_user_check_order (db : DB) (user reported : UserId)
    (reason : String) :
    (user = reported →
      report_user db user reported reason = (ReportOutcome.invalidOperation, db)) ∧
    (user ≠ reported →
      db.reports.any (fun r =>
        r.reporter == user && r.reported_user == reported) = true →
      report_user db user reported reason = (ReportOutcome.alreadyExists, db)) ∧
    (user ≠ reported →
      db.reports.any (fun r =>
        r.reporter == user && r.reported_user == reported) = false →
      strip reason = "" →
      report_user db user reported reason = (ReportOutcome.invalidInput, db)) ∧
    (user ≠ reported →
      db.reports.any (fun r =>
        r.reporter == user && r.reported_user == reported) = false →
      strip reason ≠ "" →
      report_user db user reported reason =
        (ReportOutcome.reported, { db with reports := db.reports ++
          [{ reporter := user, reported_user := reported,
             reason := strip reason }] })) := by
  refine ⟨?_, ?_, ?_, ?_⟩
  · intro h
    subst h
    unfold report_user
    rw [if_pos (by simp)]
  · intro hne hdup
    unfold report_user
    rw [if_neg (by simp [hne]), if_pos hdup]
  · intro hne hdup hempty
    unfold report_user
    rw [if_neg (by simp [hne]), if_neg (by simp [hdup])]
    simp only [hempty]
    rw [if_pos (by simp)]
  · intro hne hdup hnonempty
    unfold report_user
    rw [if_neg (by simp [hne]), if_neg (by simp [hdup]),
      if_neg (by simp [hnonempty])]

/-- Witness for C8 amended, exercising all four branches on concrete
states. -/
theorem report_user_check_order_witness :
    report_user
      { activities := [], connections := [], blocks := [], reports := [],
        ratings := [], profiles := [], nextConnId := 0, nextActId := 0 }
      1 1 "abuse" =
      (ReportOutcome.invalidOperation,
       { activities := [], connections := [], blocks := [], reports := [],
         ratings := [], profiles := [], nextConnId := 0, nextActId := 0 }) ∧
    report_user
      { activities := [], connections := [], blocks := [],
        reports := [{ reporter := 1, reported_user := 2, reason := "x" }],
        ratings := [], profiles := [], nextConnId := 0, nextActId := 0 }
      1 2 "abuse" =
      (ReportOutcome.alreadyExists,
       { activities := [], connections := [], blocks := [],
         reports := [{ reporter := 1, reported_user := 2, reason := "x" }],
         ratings := [], profiles := [], nextConnId := 0, nextActId := 0 }) ∧
    report_user
      { activities := [], connections := [], blocks := [], reports := [],
        ratings := [], profiles := [], nextConnId := 0, nextActId := 0 }
      1 2 "  " =
      (ReportOutcome.invalidInput,
       { activities := [], connections := [], blocks := [], reports := [],
         ratings := [], profiles := [], nextConnId := 0, nextActId := 0 }) ∧
    report_user
      { activities := [], connections := [], blocks := [], reports := [],
        ratings := [], profiles := [], nextConnId := 0, nextActId := 0 }
      1 2 " abuse " =
      (ReportOutcome.reported,
       { activities := [], connections := [], blocks := [],
         reports := [{ reporter := 1, reported_user := 2, reason := "abuse" }],
         ratings := [], profiles := [], nextConnId := 0, nextActId := 0 }) := by
  refine ⟨(report_user_check_order _ 1 1 "abuse").1 rfl,
    (report_user_check_order _ 1 2 "abuse").2.1 (by decide) (by decide),
    (report_user_check_order _ 1 2 "  ").2.2.1 (by decide) (by decide) (by decide),
    ?_⟩
  have h := (report_user_check_order
    { activities := [], connections := [], blocks := [], reports := [],
      ratings := [], profiles := [], nextConnId := 0, nextActId := 0 }
    1 2 " abuse ").2.2.2 (by decide) (by decide) (by decide)
  rw [h]
  have hs : strip " abuse " = "abuse" := by decide
  rw [hs]
  rfl

/-- C7: join_activity decides, in exactly this order, block either way
with the creator (Forbidden), inactive activity (InvalidState), past
activity (InvalidState), self join (InvalidOperation), existing
participation (informational AlreadyExists), and otherwise adds the
user to the participant set. -/
theorem join_activity_check_order (db : DB) (user : UserId) (id now : Nat)
    (a : Activity) (hfind : findActivity db id = some a) :
    (db.blocks.any (fun b =>
        (b.blocker == user && b.blocked_user == a.creator) ||
        (b.blocker == a.creator && b.blocked_user == user)) = true →
      join_activity db user id now = (JoinOutcome.forbidden, db)) ∧
    (db.blocks.any (fun b =>
        (b.blocker == user && b.blocked_user == a.creator) ||
        (b.blocker == a.creator && b.blocked_user == user)) = false →
      a.is_active = false →
      join_activity db user id now = (JoinOutcome.invalidStateInactive, db)) ∧
    (db.blocks.any (fun b =>
        (b.blocker == user && b.blocked_user == a.creator) ||
        (b.blocker == a.creator && b.blocked_user == user)) = false →
      a.is_active = true → a.is_past now = true →
      join_activity db user id now = (JoinOutcome.invalidStatePast, db)) ∧
    (db.blocks.any (fun b =>
        (b.blocker == user && b.blocked_user == a.creator) ||
        (b.blocker == a.creator && b.blocked_user == user)) = false →
      a.is_active = true → a.is_past now = false → a.creator = user →
      join_activity db user id now = (JoinOutcome.invalidOperationSelf, db)) ∧
    (db.blocks.any (fun b =>
        (b.blocker == user && b.blocked_user == a.creator) ||
        (b.blocker == a.creator && b.blocked_user == user)) = false →
      a.is_active = true → a.is_past now = false → a.creator ≠ user →
      a.participants.any (fun p => p == user) = true →
      join_activity db user id now = (JoinOutcome.alreadyExists, db)) ∧
    (db.blocks.any (fun b =>
        (b.blocker == user && b.blocked_user == a.creator) ||
        (b.blocker == a.creator && b.blocked_user == user)) = false →
      a.is_active = true → a.is_past now = false → a.creator ≠ user →
      a.participants.any (fun p => p == user) = false →
      (join_activity db user id now).1 = JoinOutcome.joined ∧
      participantsOf (join_activity db user id now).2 id =
        a.participants ++ [user]) := by
  refine ⟨?_, ?_, ?_, ?_, ?_, ?_⟩
  · intro hB
    simp only [join_activity, hfind, hB, if_true]
  · intro hB hact
    simp only [join_activity, hfind, hB, hact, Bool.false_eq_true, if_false,
      Bool.not_false, if_true]
  · intro hB hact hpast
    simp only [join_activity, hfind, hB, hact, hpast, Bool.false_eq_true,
      if_false, Bool.not_true, if_true]
  · intro hB hact hpast hself
    have hcu : (a.creator == user) = true := by simp [hself]
    simp only [join_activity, hfind, hB, hact, hpast, hcu, Bool.false_eq_true,
      if_false, Bool.not_true, if_true]
  · intro hB hact hpast hself hdup
    have hcu : (a.creator == user) = false := by simp [hself]
    simp only [join_activity, hfind, hB, hact, hpast, hcu, hdup,
      Bool.false_eq_true, if_false, Bool.not_true, if_true]
  · intro hB hact hpast hself hdup
    have hcu : (a.creator == user) = false := by simp [hself]
    have hjoin : join_activity db user id now =
        (JoinOutcome.joined, { db with activities := db.activities.map (fun x =>
          if x.id == id then { x with participants := x.participants ++ [user] }
          else x) }) := by
      simp only [join_activity, hfind, hB, hact, hpast, hcu, hdup,
        Bool.false_eq_true, if_false, Bool.not_true]
    refine ⟨by rw [hjoin], ?_⟩
    have hfind2 : db.activities.find? (fun x => x.id == id) = some a := hfind
    have hpa : (a.id == id) = true := by simpa using List.find?_some hfind2
    have hmapped : findActivity { db with activities := db.activities.map (fun x =>
        if x.id == id then { x with participants := x.participants ++ [user] }
        else x) } id = some { a with participants := a.participants ++ [user] } := by
      have hbase : findActivity { db with activities := db.activities.map (fun x =>
          if x.id == id then { x with participants := x.participants ++ [user] }
          else x) } id = (db.activities.find? (fun x => x.id == id)).map (fun x =>
          if x.id == id then { x with participants := x.participants ++ [user] }
          else x) :=
        find?_map_of_key db.activities _ _ (fun x => by
          by_cases hx : (x.id == id) = true <;> simp [hx])
      rw [hbase, hfind2]
      have hmap1 : Option.map (fun x : Activity =>
          if x.id == id then
            { x with participants := x.participants ++ [user] } else x) (some a) =
          some (if a.id == id then
            { a with participants := a.participants ++ [user] } else a) := rfl
      rw [hmap1, if_pos hpa]
    unfold participantsOf
    rw [hjoin, hmapped]

/-- Example activity used by the C7 witness: creator 1, scheduled at
day d, with the given participants and active flag. -/
def joinWitnessAct (p : List UserId) (act : Bool) (d : Nat) : Activity :=
  { id := 0, creator := 1, date := d, time := 0, participants := p,
    is_active := act }

/-- Example state used by the C7 witness: one activity and the given
block rows. -/
def joinWitnessDB (a : Activity) (bl : List Block) : DB :=
  { activities := [a], connections := [], blocks := bl, reports := [],
    ratings := [], profiles := [], nextConnId := 0, nextActId := 1 }

/-- Witness for C7, exercising all six branches on concrete states. -/
theorem join_activity_check_order_witness :
    join_activity (joinWitnessDB (joinWitnessAct [] true 9) [⟨1, 2⟩]) 2 0 5 =
      (JoinOutcome.forbidden, joinWitnessDB (joinWitnessAct [] true 9) [⟨1, 2⟩]) ∧
    (join_activity (joinWitnessDB (joinWitnessAct [] false 9) []) 2 0 5).1 =
      JoinOutcome.invalidStateInactive ∧
    (join_activity (joinWitnessDB (joinWitnessAct [] true 0) []) 2 0 5).1 =
      JoinOutcome.invalidStatePast ∧
    (join_activity (joinWitnessDB (joinWitnessAct [] true 9) []) 1 0 5).1 =
      JoinOutcome.invalidOperationSelf ∧
    (join_activity (joinWitnessDB (joinWitnessAct [2] true 9) []) 2 0 5).1 =
      JoinOutcome.alreadyExists ∧
    (join_activity (joinWitnessDB (joinWitnessAct [3] true 9) []) 2 0 5).1 =
      JoinOutcome.joined ∧
    participantsOf
      (join_activity (joinWitnessDB (joinWitnessAct [3] true 9) []) 2 0 5).2 0 =
      [3] ++ [2] := by
  refine ⟨(join_activity_check_order
      (joinWitnessDB (joinWitnessAct [] true 9) [⟨1, 2⟩]) 2 0 5
      (joinWitnessAct [] true 9) rfl).1 (by decide),
    by rw [(join_activity_check_order
      (joinWitnessDB (joinWitnessAct [] false 9) []) 2 0 5
      (joinWitnessAct [] false 9) rfl).2.1 (by decide) (by decide)],
    by rw [(join_activity_check_order
      (joinWitnessDB (joinWitnessAct [] true 0) []) 2 0 5
      (joinWitnessAct [] true 0) rfl).2.2.1
      (by decide) (by decide) (by decide)],
    by rw [(join_activity_check_order
      (joinWitnessDB (joinWitnessAct [] true 9) []) 1 0 5
      (joinWitnessAct [] true 9) rfl).2.2.2.1
      (by decide) (by decide) (by decide) (by decide)],
    by rw [(join_activity_check_order
      (joinWitnessDB (joinWitnessAct [2] true 9) []) 2 0 5
      (joinWitnessAct [2] true 9) rfl).2.2.2.2.1
      (by decide) (by decide) (by decide) (by decide) (by decide)],
    ((join_activity_check_order
      (joinWitnessDB (joinWitnessAct [3] true 9) []) 2 0 5
      (joinWitnessAct [3] true 9) rfl).2.2.2.2.2
      (by decide) (by decide) (by decide) (by decide) (by decide)).1,
    ((join_activity_check_order
      (joinWitnessDB (joinWitnessAct [3] true 9) []) 2 0 5
      (joinWitnessAct [3] true 9) rfl).2.2.2.2.2
      (by decide) (by decide) (by decide) (by decide) (by decide)).2⟩

/-- C5: when the unordered pair has an existing Rejected connection
row, a new request overwrites that same row in place to a Pending row
whose sender is the new requester and receiver the other party; no
second row appears and the operation reports success. -/
theorem send_connection_rejected_resets (db : DB) (a b : UserId)
    (c : Connection)
    (hfind : db.connections.find? (fun x =>
      (x.sender == a && x.receiver == b) ||
      (x.sender == b && x.receiver == a)) = some c)
    (hst : c.status = ConnectionStatus.rejected)
    (hnb : blockedEitherWay db a b = false)
    (hne : a ≠ b) :
    send_connection db a b =
      (ConnOutcome.requestSent,
       { db with connections := db.connections.map (fun c2 =>
          if c2.id == c.id then
            { c2 with sender := a, receiver := b,
                      status := ConnectionStatus.pending }
          else c2) }) ∧
    ((send_connection db a b).2).connections.length =
      db.connections.length := by
  have hab : (a == b) = false := by simp [hne]
  have h1 : send_connection db a b =
      (ConnOutcome.requestSent,
       { db with connections := db.connections.map (fun c2 =>
          if c2.id == c.id then
            { c2 with sender := a, receiver := b,
                      status := ConnectionStatus.pending }
          else c2) }) := by
    simp only [send_connection, hnb, hab, hfind, hst, Bool.false_eq_true,
      if_false]
    rfl
  refine ⟨h1, ?_⟩
  rw [h1]
  exact List.length_map _ _

/-- Witness for C5: a connection 2 to 1 rejected earlier is reset to a
pending request 1 to 2 in the same row. -/
theorem send_connection_rejected_resets_witness :
    send_connection
      { activities := [], connections := [⟨7, 2, 1, .rejected⟩],
        blocks := [], reports := [], ratings := [], profiles := [],
        nextConnId := 8, nextActId := 0 } 1 2 =
      (ConnOutcome.requestSent,
       { activities := [],
         connections := [⟨7, 2, 1, .rejected⟩].map (fun c2 =>
           if c2.id == (7 : Nat) then
             { c2 with sender := 1, receiver := 2,
                       status := ConnectionStatus.pending }
           else c2),
         blocks := [], reports := [], ratings := [], profiles := [],
         nextConnId := 8, nextActId := 0 }) ∧
    ((send_connection
      { activities := [], connections := [⟨7, 2, 1, .rejected⟩],
        blocks := [], reports := [], ratings := [], profiles := [],
        nextConnId := 8, nextActId := 0 } 1 2).2).connections.length =
      ([⟨7, 2, 1, .rejected⟩] : List Connection).length :=
  send_connection_rejected_resets _ 1 2 ⟨7, 2, 1, .rejected⟩
    rfl rfl rfl (by decide)


/-- C4: a rating attempt by a participant against the activity creator
with a score outside one to five fails on the score alone (the view
checks all pass and full_clean reports exactly the invalid score
error), and the state, hence every Rating row and every Profile
statistic, is returned unchanged. -/
theorem rate_user_out_of_range_score (db : DB) (rater : UserId)
    (aid uid : Nat) (score : Int) (fb : String) (now : Nat) (a : Activity)
    (hfind : findActivity db aid = some a)
    (hrated : uid = a.creator)
    (hself : rater ≠ uid)
    (hpart : a.participants.any (fun p => p == rater) = true)
    (hpast : a.is_past now = true)
    (hdup : db.ratings.any (fun r =>
      r.rater == rater && r.activity == aid) = false)
    (hb1 : db.blocks.any (fun b =>
      b.blocker == rater && b.blocked_user == uid) = false)
    (hb2 : db.blocks.any (fun b =>
      b.blocker == uid && b.blocked_user == rater) = false)
    (hscore : score < 1 ∨ 5 < score) :
    rate_user db rater aid uid score fb now =
      (RateOutcome.failure [RateReason.invalidScore], db) := by
  subst hrated
  have hru : (rater == a.creator) = false := by simp [hself]
  have hclean : Rating.clean
      { rater := rater, rated_user := a.creator, activity := aid,
        score := score, feedback := strip fb } a db now = none := by
    simp only [Rating.clean, hru, hpart, hpast, hb1, hb2]
    simp
  have hfc : Rating.full_clean
      { rater := rater, rated_user := a.creator, activity := aid,
        score := score, feedback := strip fb } a db now =
      [RateReason.invalidScore] := by
    have hsc :
        ({ rater := rater, rated_user := a.creator, activity := aid,
           score := score, feedback := strip fb } : Rating).score = score := rfl
    unfold Rating.full_clean Rating.clean_fields
    rw [hclean, hsc]
    rcases hscore with h | h
    · rw [if_pos h, if_neg (by omega)]
      rfl
    · rw [if_neg (by omega), if_pos h]
      rfl
  simp only [rate_user, hfind, hru, hpart, hpast, hdup, hb1, hb2, hfc,
    Bool.false_eq_true, if_false, Bool.not_true, Bool.true_eq_false]

/-- Example activity for the rating witnesses: creator 1 with sole
participant 2, scheduled at instant zero, so past at any later time. -/
def rateWitnessAct : Activity :=
  { id := 0, creator := 1, date := 0, time := 0, participants := [2],
    is_active := true }

/-- Example state for the rating witnesses: the one activity and fresh
profiles for users 1 and 2. -/
def rateWitnessDB : DB :=
  { activities := [rateWitnessAct], connections := [], blocks := [],
    reports := [], ratings := [], profiles := [(1, ⟨0, 0⟩), (2, ⟨0, 0⟩)],
    nextConnId := 0, nextActId := 1 }

/-- Witness for C4: participant 2 rates creator 1 with score 6 and the
request fails with only the invalid score error, state untouched. -/
theorem rate_user_out_of_range_score_witness :
    rate_user rateWitnessDB 2 0 1 6 "" 1 =
      (RateOutcome.failure [RateReason.invalidScore], rateWitnessDB) :=
  rate_user_out_of_range_score rateWitnessDB 2 0 1 6 "" 1 rateWitnessAct
    rfl rfl (by decide) (by decide) (by decide) (by decide) (by decide)
    (by decide) (by decide)

/-- Example activity for the C1 counterexample: creator 1, nobody has
joined. -/
def canRateCexAct : Activity :=
  { id := 0, creator := 1, date := 0, time := 0, participants := [],
    is_active := true }

/-- Example state for the C1 counterexample. -/
def canRateCexDB : DB :=
  { activities := [canRateCexAct], connections := [], blocks := [],
    reports := [], ratings := [], profiles := [],
    nextConnId := 0, nextActId := 1 }

/-- C1 counterexample: user 2 rates user 3 on the past activity of
creator 1 without having joined it, with an in-range score.  In the
order the spec claims, the rated-user-is-not-the-creator check (its
check 2) fires before the participation check (its check 3), so the
reported reason would be OnlyCreatorCanBeRated; the code instead
reports NotAParticipant, because the view checks participation before
any creator check and the creator checks live only in model
validation. -/
theorem can_rate_order_counterexample :
    findActivity canRateCexDB 0 = some canRateCexAct ∧
    (1 : Int) ≤ 3 ∧ (3 : Int) ≤ 5 ∧
    (rate_user canRateCexDB 2 0 3 3 "" 1).1 =
      RateOutcome.failure [RateReason.notAParticipant] ∧
    can_rate canRateCexDB 2 3 canRateCexAct 1 =
      some RateReason.onlyCreatorCanBeRated ∧
    RateReason.notAParticipant ≠ RateReason.onlyCreatorCanBeRated := by
  decide

/-- Helper: once the view checks of rate_user have passed and the
score is in range, full_clean can only fail on the two creator checks
of Rating.clean, in their source order; the re-checks of
participation, completion and blocks inside clean cannot fire. -/
theorem full_clean_after_view_checks (db : DB) (r : Rating) (a : Activity)
    (now : Nat)
    (h1 : 1 ≤ r.score) (h5 : r.score ≤ 5)
    (hpart : a.participants.any (fun p => p == r.rater) = true)
    (hpast : a.is_past now = true)
    (hb1 : db.blocks.any (fun b =>
      b.blocker == r.rater && b.blocked_user == r.rated_user) = false)
    (hb2 : db.blocks.any (fun b =>
      b.blocker == r.rated_user && b.blocked_user == r.rater) = false) :
    Rating.full_clean r a db now =
      (if r.rater == a.creator then [RateReason.creatorCannotRate]
       else if r.rated_user != a.creator then [RateReason.onlyCreatorCanBeRated]
       else []) := by
  have hcf : Rating.clean_fields r = [] := by
    unfold Rating.clean_fields
    rw [if_neg (by omega), if_neg (by omega)]
    rfl
  unfold Rating.full_clean
  rw [hcf]
  by_cases hcr : (r.rater == a.creator) = true
  · simp [Rating.clean, hcr]
  · by_cases hoc : (r.rated_user != a.creator) = true
    · simp [Rating.clean, hcr, hoc]
    · have huid : r.rated_user = a.creator := by simpa using hoc
      have hocb : (r.rated_user != a.creator) = false := by simp [huid]
      have hbc1 : db.blocks.any (fun b =>
          b.blocker == r.rater && b.blocked_user == a.creator) = false := by
        rw [← huid]
        exact hb1
      have hbc2 : db.blocks.any (fun b =>
          b.blocker == a.creator && b.blocked_user == r.rater) = false := by
        rw [← huid]
        exact hb2
      simp [Rating.clean, hcr, hocb, hpart, hpast, hbc1, hbc2]

/-- C1 amended: for an in-range score, the reason reported by the
rating pipeline is the first failing check of the order the code
implements — self-rating, participation, completion, duplicate, block
by the rater, block by the rated user, and only then (inside model
validation) rater-is-the-creator and rated-user-is-not-the-creator —
with success exactly when all pass.  This differs from the claimed
order, which places the rated-user-must-be-the-creator check second. -/
theorem rate_user_reports_impl_order (db : DB) (rater : UserId)
    (aid uid : Nat) (score : Int) (fb : String) (now : Nat) (a : Activity)
    (hfind : findActivity db aid = some a)
    (h1 : 1 ≤ score) (h5 : score ≤ 5) :
    (rate_user db rater aid uid score fb now).1 =
      (match can_rate_impl db rater uid a now with
       | some e => RateOutcome.failure [e]
       | none => RateOutcome.success) := by
  have hfind2 : db.activities.find? (fun x => x.id == aid) = some a := hfind
  have haid : a.id = aid := by simpa using List.find?_some hfind2
  subst haid
  cases hc1 : (rater == uid) with
  | true => simp [rate_user, can_rate_impl, hfind, hc1]
  | false =>
  cases hc2 : a.participants.any (fun p => p == rater) with
  | false => simp [rate_user, can_rate_impl, hfind, hc1, hc2]
  | true =>
  cases hc3 : a.is_past now with
  | false => simp [rate_user, can_rate_impl, hfind, hc1, hc2, hc3]
  | true =>
  cases hc4 : db.ratings.any (fun r => r.rater == rater && r.activity == a.id) with
  | true => simp [rate_user, can_rate_impl, hfind, hc1, hc2, hc3, hc4]
  | false =>
  cases hc5 : db.blocks.any (fun b =>
      b.blocker == rater && b.blocked_user == uid) with
  | true => simp [rate_user, can_rate_impl, hfind, hc1, hc2, hc3, hc4, hc5]
  | false =>
  cases hc6 : db.blocks.any (fun b =>
      b.blocker == uid && b.blocked_user == rater) with
  | true => simp [rate_user, can_rate_impl, hfind, hc1, hc2, hc3, hc4, hc5, hc6]
  | false =>
  have hfc : Rating.full_clean
      { rater := rater, rated_user := uid, activity := a.id,
        score := score, feedback := strip fb } a db now =
      (if rater == a.creator then [RateReason.creatorCannotRate]
       else if uid != a.creator then [RateReason.onlyCreatorCanBeRated]
       else []) :=
    full_clean_after_view_checks db
      { rater := rater, rated_user := uid, activity := a.id,
        score := score, feedback := strip fb } a now h1 h5 hc2 hc3 hc5 hc6
  cases hcr : (rater == a.creator) with
  | true =>
    rw [if_pos hcr] at hfc
    simp [rate_user, can_rate_impl, hfind, hc1, hc2, hc3, hc4, hc5, hc6,
      hcr, hfc]
  | false =>
  cases hoc : (uid != a.creator) with
  | true =>
    rw [if_neg (by simp [hcr]), if_pos hoc] at hfc
    simp [rate_user, can_rate_impl, hfind, hc1, hc2, hc3, hc4, hc5, hc6,
      hcr, hoc, hfc]
  | false =>
    rw [if_neg (by simp [hcr]), if_neg (by simp [hoc])] at hfc
    simp [rate_user, can_rate_impl, hfind, hc1, hc2, hc3, hc4, hc5, hc6,
      hcr, hoc, hfc]

/-- Witness for C1 amended: participant 2 rates creator 1 with score 4
after the activity passed, and the pipeline succeeds exactly as the
implemented-order predicate predicts. -/
theorem rate_user_reports_impl_order_witness :
    (rate_user rateWitnessDB 2 0 1 4 "" 1).1 =
      (match can_rate_impl rateWitnessDB 2 1 rateWitnessAct 1 with
       | some e => RateOutcome.failure [e]
       | none => RateOutcome.success) :=
  rate_user_reports_impl_order rateWitnessDB 2 0 1 4 "" 1 rateWitnessAct
    rfl (by decide) (by decide)

/-- The profile row of a user, as the read side of the Profile
table. -/
def lookupProfile (db : DB) (u : UserId) : Option Profile :=
  (db.profiles.find? (fun p => p.1 == u)).map (fun p => p.2)

/-- Helper: a profile-map keyed on the first component preserves
membership tests on the first component. -/
theorem any_map_fst (l : List (UserId × Profile)) (u v : UserId)
    (st : Profile) :
    (l.map (fun p => if p.1 == v then (p.1, st) else p)).any
        (fun p => p.1 == u) =
      l.any (fun p => p.1 == u) := by
  induction l with
  | nil => rfl
  | cons x xs ih =>
    simp only [List.map_cons, List.any_cons, ih]
    congr 1
    by_cases hx : (x.1 == v) = true <;> simp [hx]

/-- Helper: updating the rating statistics of one user does not change
which users have a profile row. -/
theorem hasProfile_update (db : DB) (u v : UserId) :
    hasProfile (updateRatingStats db v) u = hasProfile db u := by
  unfold hasProfile updateRatingStats
  exact any_map_fst db.profiles u v (ratingStats db.ratings v)

/-- Helper: a satisfied predicate somewhere in the list means find?
returns a row. -/
theorem find?_of_any {α : Type} (l : List α) (p : α → Bool)
    (h : l.any p = true) : ∃ q, l.find? p = some q := by
  induction l with
  | nil => simp at h
  | cons x xs ih =>
    by_cases hx : p x = true
    · exact ⟨x, List.find?_cons_of_pos _ hx⟩
    · have hx2 : p x = false := by simpa using hx
      rw [List.any_cons, hx2, Bool.false_or] at h
      obtain ⟨q, hq⟩ := ih h
      exact ⟨q, by rw [List.find?_cons_of_neg _ hx, hq]⟩

/-- Helper: after updateRatingStats, the profile row of the updated
user holds exactly the recomputed statistics. -/
theorem lookupProfile_update (db : DB) (u : UserId)
    (h : hasProfile db u = true) :
    lookupProfile (updateRatingStats db u) u =
      some (ratingStats db.ratings u) := by
  obtain ⟨q, hq⟩ := find?_of_any db.profiles (fun p => p.1 == u) h
  have hpq : (q.1 == u) = true := by simpa using List.find?_some hq
  have hbase : ({ db with profiles := db.profiles.map (fun p =>
      if p.1 == u then (p.1, ratingStats db.ratings u) else p) } : DB).profiles.find?
        (fun p => p.1 == u) =
      (db.profiles.find? (fun p => p.1 == u)).map (fun p =>
        if p.1 == u then (p.1, ratingStats db.ratings u) else p) :=
    find?_map_of_key db.profiles _ _ (fun p => by
      by_cases hp : (p.1 == u) = true <;> simp [hp])
  have hqu : q.1 = u := by simpa using hpq
  unfold lookupProfile updateRatingStats
  rw [hbase, hq]
  simp [hqu]

/-- C3: whenever rate_user succeeds, the rated user profile in the
resulting state carries exactly the statistics recomputed over the
resulting Rating table — the rounded average (or zero with no rating)
and the count — because creation triggers the recomputation through
the post_save signal and the explicit refresh. -/
theorem rating_creation_updates_stats (db : DB) (rater : UserId)
    (aid uid : Nat) (score : Int) (fb : String) (now : Nat) (db2 : DB)
    (hsucc : rate_user db rater aid uid score fb now =
      (RateOutcome.success, db2))
    (hprof : hasProfile db uid = true) :
    lookupProfile db2 uid = some (ratingStats db2.ratings uid) := by
  have hd1 : ratingPostSave
      { db with ratings := db.ratings ++
        [{ rater := rater, rated_user := uid, activity := aid,
           score := score, feedback := strip fb }] }
      { rater := rater, rated_user := uid, activity := aid,
        score := score, feedback := strip fb } =
      updateRatingStats
        { db with ratings := db.ratings ++
          [{ rater := rater, rated_user := uid, activity := aid,
             score := score, feedback := strip fb }] } uid := by
    unfold ratingPostSave
    rw [if_pos (show hasProfile
      { db with ratings := db.ratings ++
        [{ rater := rater, rated_user := uid, activity := aid,
           score := score, feedback := strip fb }] } uid = true from hprof)]
  have hp1 : hasProfile (ratingPostSave
      { db with ratings := db.ratings ++
        [{ rater := rater, rated_user := uid, activity := aid,
           score := score, feedback := strip fb }] }
      { rater := rater, rated_user := uid, activity := aid,
        score := score, feedback := strip fb }) uid = true := by
    rw [hd1, hasProfile_update]
    exact hprof
  have hp2 : hasProfile (updateRatingStats
      { db with ratings := db.ratings ++
        [{ rater := rater, rated_user := uid, activity := aid,
           score := score, feedback := strip fb }] } uid) uid = true := by
    rw [hasProfile_update]
    exact hprof
  cases hfa : findActivity db aid with
  | none =>
    simp [rate_user, hfa] at hsucc
  | some a =>
    simp only [rate_user, hfa] at hsucc
    split_ifs at hsucc with h1 h2 h3 h4 h5 h6
    · exact absurd hsucc (by simp)
    · exact absurd hsucc (by simp)
    · exact absurd hsucc (by simp)
    · exact absurd hsucc (by simp)
    · exact absurd hsucc (by simp)
    · exact absurd hsucc (by simp)
    · cases hfc : Rating.full_clean
          { rater := rater, rated_user := uid, activity := aid,
            score := score, feedback := strip fb } a db now with
      | cons e es =>
        rw [hfc] at hsucc
        simp at hsucc
      | nil =>
        rw [hfc] at hsucc
        simp at hsucc
        subst hsucc
        rw [hd1, lookupProfile_update _ _ hp2]
        rfl

/-- Witness for C3: participant 2 rates creator 1 with score 4; the
profile of user 1 in the resulting state equals the recomputed
statistics. -/
theorem rating_creation_updates_stats_witness :
    lookupProfile (rate_user rateWitnessDB 2 0 1 4 "" 1).2 1 =
      some (ratingStats (rate_user rateWitnessDB 2 0 1 4 "" 1).2.ratings 1) :=
  rating_creation_updates_stats rateWitnessDB 2 0 1 4 "" 1 _ rfl rfl

/-! Helper lemmas for C10: every operation except join and
create_activity leaves the Activity table untouched, and those two
only append to it or to a participant list. -/

theorem send_connection_activities (db : DB) (u r : UserId) :
    ((send_connection db u r).2).activities = db.activities := by
  unfold send_connection
  repeat' split
  all_goals rfl

theorem accept_connection_activities (db : DB) (u : UserId) (id : Nat) :
    (accept_connection db u id).activities = db.activities := by
  unfold accept_connection
  repeat' split
  all_goals rfl

theorem reject_connection_activities (db : DB) (u : UserId) (id : Nat) :
    (reject_connection db u id).activities = db.activities := by
  unfold reject_connection
  repeat' split
  all_goals rfl

theorem updateRatingStats_activities (db : DB) (u : UserId) :
    (updateRatingStats db u).activities = db.activities := rfl

theorem ratingPostSave_activities (db : DB) (r : Rating) :
    (ratingPostSave db r).activities = db.activities := by
  unfold ratingPostSave
  split
  · exact updateRatingStats_activities _ _
  · rfl

theorem rate_user_activities (db : DB) (u : UserId) (aid uid : Nat)
    (s : Int) (fb : String) (now : Nat) :
    ((rate_user db u aid uid s fb now).2).activities = db.activities := by
  unfold rate_user
  repeat' split
  all_goals try rfl
  all_goals dsimp only
  all_goals split
  all_goals simp [apply_ite DB.activities, updateRatingStats_activities,
    ratingPostSave_activities]

theorem report_user_activities (db : DB) (u r : UserId) (reason : String) :
    ((report_user db u r reason).2).activities = db.activities := by
  unfold report_user
  repeat' split
  all_goals try rfl
  all_goals dsimp only
  all_goals split
  all_goals rfl

theorem block_user_activities (db : DB) (u t : UserId) :
    ((block_user db u t).2).activities = db.activities := by
  unfold block_user
  repeat' split
  all_goals rfl

theorem unblock_user_activities (db : DB) (u t : UserId) :
    (unblock_user db u t).activities = db.activities := by
  rfl

theorem participantsOf_congr (db2 db3 : DB) (id : Nat)
    (h : db2.activities = db3.activities) :
    participantsOf db2 id = participantsOf db3 id := by
  unfold participantsOf findActivity
  rw [h]

theorem participantsOf_append (db : DB) (l : List Activity) (id : Nat) :
    participantsOf db id ⊆
      participantsOf { db with activities := db.activities ++ l } id := by
  unfold participantsOf findActivity
  rw [show ({ db with activities := db.activities ++ l } : DB).activities = db.activities ++ l from rfl]
  rw [find?_append_cases]
  cases hf : db.activities.find? (fun x => x.id == id) with
  | some a => exact List.Subset.refl _
  | none => exact List.nil_subset _

theorem participantsOf_map_join (db : DB) (u : UserId) (jid id : Nat) :
    participantsOf db id ⊆
      participantsOf { db with activities := db.activities.map (fun x => if x.id == jid then { x with participants := x.participants ++ [u] } else x) } id := by
  unfold participantsOf findActivity
  rw [show ({ db with activities := db.activities.map (fun x => if x.id == jid then { x with participants := x.participants ++ [u] } else x) } : DB).activities = db.activities.map (fun x => if x.id == jid then { x with participants := x.participants ++ [u] } else x) from rfl]
  rw [find?_map_of_key db.activities _ _ (fun x => by
    by_cases hj : (x.id == jid) = true <;> simp [hj])]
  cases hf : db.activities.find? (fun x => x.id == id) with
  | none => exact List.nil_subset _
  | some b =>
    by_cases hb : (b.id == jid) = true
    · simp only [Option.map, hb, if_true]
      exact List.subset_append_left _ _
    · simp only [Option.map, hb, if_false]
      exact List.Subset.refl _

/-- Helper: a single dispatched operation never removes a member from
any participant set. -/
theorem participantsOf_step_mono (db : DB) (op : Op) (id : Nat) :
    participantsOf db id ⊆ participantsOf (step db op) id := by
  cases op with
  | createActivity c d t now =>
    have h2 : (step db (Op.createActivity c d t now)).activities =
        ({ db with activities := db.activities ++ [Activity.save ⟨db.nextActId, c, d, t, [], true⟩ now] } : DB).activities :=
      rfl
    rw [participantsOf_congr _ _ id h2]
    exact participantsOf_append db _ id
  | join u jid now =>
    simp only [step]
    unfold join_activity
    cases hfa : findActivity db jid with
    | none => exact List.Subset.refl _
    | some a =>
      dsimp only
      split_ifs
      · exact List.Subset.refl _
      · exact List.Subset.refl _
      · exact List.Subset.refl _
      · exact List.Subset.refl _
      · exact List.Subset.refl _
      · exact participantsOf_map_join db u jid id
  | sendConnection u r =>
    simp only [step]
    rw [participantsOf_congr _ _ id (send_connection_activities db u r)]
    exact List.Subset.refl _
  | acceptConnection u cid =>
    simp only [step]
    rw [participantsOf_congr _ _ id (accept_connection_activities db u cid)]
    exact List.Subset.refl _
  | rejectConnection u cid =>
    simp only [step]
    rw [participantsOf_congr _ _ id (reject_connection_activities db u cid)]
    exact List.Subset.refl _
  | rate u aid uid s fb now =>
    simp only [step]
    rw [participantsOf_congr _ _ id (rate_user_activities db u aid uid s fb now)]
    exact List.Subset.refl _
  | report u r reason =>
    simp only [step]
    rw [participantsOf_congr _ _ id (report_user_activities db u r reason)]
    exact List.Subset.refl _
  | block u t =>
    simp only [step]
    rw [participantsOf_congr _ _ id (block_user_activities db u t)]
    exact List.Subset.refl _
  | unblock u t =>
    simp only [step]
    rw [participantsOf_congr _ _ id (unblock_user_activities db u t)]
    exact List.Subset.refl _

/-- C10: across every sequence of interface operations, the
participant set of every activity only grows — no dispatched operation
removes a participant, and no leave operation exists. -/
theorem participants_monotone (ops : List Op) (db : DB) (id : Nat) :
    participantsOf db id ⊆ participantsOf (ops.foldl step db) id := by
  induction ops generalizing db with
  | nil => exact List.Subset.refl _
  | cons op rest ih =>
    exact List.Subset.trans (participantsOf_step_mono db op id)
      (ih (step db op))

/-- Witness for C10: the existing participant 3 is still a participant
after user 2 joins the same activity. -/
theorem participants_monotone_witness :
    (3 : UserId) ∈ participantsOf
      ([Op.join 2 0 5].foldl step (joinWitnessDB (joinWitnessAct [3] true 9) []))
      0 :=
  participants_monotone [Op.join 2 0 5]
    (joinWitnessDB (joinWitnessAct [3] true 9) []) 0 (by decide)

end Social
